import Mathlib

/-!
Shallow embedding of the TrinoDocumentsGenerator worker
(`puppeteer.service.ts`, `s3.service.ts`, `pdf-generation.processor.ts`,
`app.config.ts`) and proofs about its option resolution, clip strategy,
resource cleanup and job pipeline.

Numbers that only flow through (viewport sizes, clip coordinates, probed
content dimensions, quality) are modelled as `Int`; optional JS fields are
`Option`; a JS value thrown as an error is modelled by its message string.
External collaborators (puppeteer, the AWS SDK, BullMQ, the logger's
info-level calls) are modelled by environments that fix the outcome of each
awaited call; the traces record the calls the code makes and the argument
records it builds for them.
-/

namespace TrinoDoc

/-- Errors are carried by their message string. -/
abbrev Err := String

/-- Opaque metaData bag (`Record<string, unknown>` in the source). -/
abbrev MetaData := List (String × String)

/-- `documentType` union `"pdf" | "image"` from `generate-document.job.ts`. -/
inductive DocumentType where
  | pdf
  | image
deriving Repr, DecidableEq

/-- The `clip` rectangle of `ImageOptions` in `generate-document.job.ts`. -/
structure Clip where
  x : Int
  y : Int
  width : Int
  height : Int
deriving Repr, DecidableEq

/-- The `margin` object of `PdfOptions`: every side is optional. -/
structure PdfMargin where
  top : Option String
  right : Option String
  bottom : Option String
  left : Option String
deriving Repr, DecidableEq

/-- `PdfOptions` from `generate-document.job.ts`: all fields optional. -/
structure PdfOptions where
  format : Option String
  landscape : Option Bool
  printBackground : Option Bool
  margin : Option PdfMargin
  tagged : Option Bool
  preferCSSPageSize : Option Bool
deriving Repr, DecidableEq

/-- `ImageOptions` from `generate-document.job.ts`: all fields optional. -/
structure ImageOptions where
  type : Option String
  quality : Option Int
  fullPage : Option Bool
  deviceScaleFactor : Option Int
  hasTouch : Option Bool
  isLandscape : Option Bool
  isMobile : Option Bool
  width : Option Int
  height : Option Int
  clip : Option Clip
  omitBackground : Option Bool
deriving Repr, DecidableEq

/-- The fully populated options record `generatePdf` hands to `page.pdf`. -/
structure ResolvedPdfOptions where
  format : String
  landscape : Bool
  printBackground : Bool
  margin : PdfMargin
  tagged : Bool
  preferCSSPageSize : Bool
deriving Repr, DecidableEq

/-- The margin object built inline in `generatePdf` when `options?.margin`
is nullish: `{ top: "10mm", right: "10mm", bottom: "10mm", left: "10mm" }`. -/
def defaultMargin : PdfMargin :=
  { top := some "10mm", right := some "10mm", bottom := some "10mm", left := some "10mm" }

/-- The option merging `generatePdf` performs in its call to `page.pdf`:
each field is `options?.field ?? default`; the margin defaults as one
object. -/
def resolvePdfOptions (options : Option PdfOptions) : ResolvedPdfOptions :=
  { format := (options.bind (·.format)).getD "A4"
  , landscape := (options.bind (·.landscape)).getD false
  , printBackground := (options.bind (·.printBackground)).getD true
  , margin := (options.bind (·.margin)).getD defaultMargin
  , tagged := (options.bind (·.tagged)).getD true
  , preferCSSPageSize := (options.bind (·.preferCSSPageSize)).getD true }

/-- The `defaultViewport` record `generateImage` passes to `puppeteer.launch`. -/
structure Viewport where
  deviceScaleFactor : Int
  hasTouch : Bool
  isLandscape : Bool
  isMobile : Bool
  width : Int
  height : Int
deriving Repr, DecidableEq

/-- The viewport merging in `generateImage`: each field is
`options?.field ?? default`. -/
def resolveViewport (options : Option ImageOptions) : Viewport :=
  { deviceScaleFactor := (options.bind (·.deviceScaleFactor)).getD 1
  , hasTouch := (options.bind (·.hasTouch)).getD false
  , isLandscape := (options.bind (·.isLandscape)).getD false
  , isMobile := (options.bind (·.isMobile)).getD true
  , width := (options.bind (·.width)).getD 320
  , height := (options.bind (·.height)).getD 1080 }

/-- The `ScreenshotOptions` record built by `generateImage`; `none` models
a key that was never assigned on the object. -/
structure ScreenshotOptions where
  type : String
  omitBackground : Bool
  quality : Option Int
  clip : Option Clip
  fullPage : Option Bool
deriving Repr, DecidableEq

/-- The `{ width, height }` object returned by the `page.evaluate` content
probe (`document.body.scrollWidth` / `scrollHeight`). -/
structure Dimensions where
  width : Int
  height : Int
deriving Repr, DecidableEq

/-- The screenshot-option assembly in `generateImage`: the base record sets
`type` and `omitBackground`; `quality` is assigned only when the resolved
type is in `["jpeg", "webp"]`; then exactly one of `clip` (caller clip, else
auto-fit from the probe when both dimensions are positive) or `fullPage`
(fallback) is assigned. -/
def buildScreenshotOptions (options : Option ImageOptions)
    (contentDimensions : Dimensions) : ScreenshotOptions :=
  let base : ScreenshotOptions :=
    { type := (options.bind (·.type)).getD "png"
    , omitBackground := (options.bind (·.omitBackground)).getD false
    , quality := none, clip := none, fullPage := none }
  let withQuality : ScreenshotOptions :=
    if base.type = "jpeg" ∨ base.type = "webp" then
      { base with quality := some ((options.bind (·.quality)).getD 80) }
    else base
  match options.bind (·.clip) with
  | some clip => { withQuality with clip := some clip }
  | none =>
    if contentDimensions.width > 0 ∧ contentDimensions.height > 0 then
      let autoClip : Clip := Clip.mk 0 0 contentDimensions.width contentDimensions.height
      { withQuality with clip := some autoClip }
    else
      { withQuality with fullPage := some ((options.bind (·.fullPage)).getD true) }

/-- `getExecutablePath` in `puppeteer.service.ts`: a truthy (non-empty)
configured `localChromiumPath` is returned as is; otherwise the
`@sparticuz/chromium` binary path is resolved. The boolean records whether
`chromium.executablePath()` was consulted. -/
def getExecutablePath (localChromiumPath : Option String)
    (chromiumExecutablePath : String) : String × Bool :=
  match localChromiumPath with
  | some s => if s = "" then (chromiumExecutablePath, true) else (s, false)
  | none => (chromiumExecutablePath, true)

/-- `localChromiumPath: process.env.LOCAL_CHROMIUM_PATH || undefined` in
`app.config.ts`: a falsy (absent or empty) variable loads as `undefined`. -/
def loadLocalChromiumPath (envVar : Option String) : Option String :=
  match envVar with
  | some s => if s = "" then none else some s
  | none => none

/-- Calls a render-engine session makes, with the argument records the code
builds for them. -/
inductive Event where
  | launch (executablePath : String) (defaultViewport : Option Viewport)
  | setContent (html : String) (waitUntil : List String)
  | pdfExport (options : ResolvedPdfOptions)
  | evaluateProbe
  | screenshot (options : ScreenshotOptions)
  | close
deriving Repr, DecidableEq

/-- Outcome of each awaited external call inside one `generatePdf` or
`generateImage` invocation. -/
structure SessionEnv where
  chromiumExecutablePath : String
  launchResult : Except Err Unit
  newPageResult : Except Err Unit
  setContentResult : Except Err Unit
  pdfResult : Except Err (List Nat)
  evaluateResult : Except Err Dimensions
  screenshotResult : Except Err (List Nat)
  closeResult : Except Err Unit

/-- `PuppeteerService.generatePdf`: resolve the executable, launch, then in
a `try` block open a page, `setContent` with `networkidle0` and export the
PDF; the `finally` block awaits `browser.close()`. Per JS semantics an
exception raised in the `finally` block replaces whatever completion the
`try` block produced. Returns the overall outcome and the trace of calls. -/
def generatePdfRun (localChromiumPath : Option String) (env : SessionEnv)
    (html : String) (options : Option PdfOptions) :
    Except Err (List Nat) × List Event :=
  let executablePath := (getExecutablePath localChromiumPath env.chromiumExecutablePath).1
  match env.launchResult with
  | .error e => (.error e, [.launch executablePath none])
  | .ok _ =>
    let body : Except Err (List Nat) × List Event :=
      match env.newPageResult with
      | .error e => (.error e, [])
      | .ok _ =>
        match env.setContentResult with
        | .error e => (.error e, [.setContent html ["networkidle0"]])
        | .ok _ =>
          match env.pdfResult with
          | .error e =>
            (.error e, [.setContent html ["networkidle0"], .pdfExport (resolvePdfOptions options)])
          | .ok bytes =>
            (.ok bytes, [.setContent html ["networkidle0"], .pdfExport (resolvePdfOptions options)])
    let finalResult : Except Err (List Nat) :=
      match env.closeResult with
      | .error eClose => .error eClose
      | .ok _ => body.1
    (finalResult, .launch executablePath none :: body.2 ++ [.close])

/-- `PuppeteerService.generateImage`: resolve the executable, launch with
the resolved `defaultViewport`, then in a `try` block open a page,
`setContent` with `["load", "networkidle2"]`, probe the content dimensions
via `page.evaluate`, build the screenshot options and take the screenshot;
the `finally` block awaits `browser.close()`, whose exception replaces the
`try` block's completion. -/
def generateImageRun (localChromiumPath : Option String) (env : SessionEnv)
    (html : String) (options : Option ImageOptions) :
    Except Err (List Nat) × List Event :=
  let executablePath := (getExecutablePath localChromiumPath env.chromiumExecutablePath).1
  let viewport := resolveViewport options
  match env.launchResult with
  | .error e => (.error e, [.launch executablePath (some viewport)])
  | .ok _ =>
    let body : Except Err (List Nat) × List Event :=
      match env.newPageResult with
      | .error e => (.error e, [])
      | .ok _ =>
        match env.setContentResult with
        | .error e => (.error e, [.setContent html ["load", "networkidle2"]])
        | .ok _ =>
          match env.evaluateResult with
          | .error e => (.error e, [.setContent html ["load", "networkidle2"], .evaluateProbe])
          | .ok dims =>
            let so := buildScreenshotOptions options dims
            match env.screenshotResult with
            | .error e =>
              (.error e, [.setContent html ["load", "networkidle2"], .evaluateProbe, .screenshot so])
            | .ok bytes =>
              (.ok bytes, [.setContent html ["load", "networkidle2"], .evaluateProbe, .screenshot so])
    let finalResult : Except Err (List Nat) :=
      match env.closeResult with
      | .error eClose => .error eClose
      | .ok _ => body.1
    (finalResult, .launch executablePath (some viewport) :: body.2 ++ [.close])

/-- `GenerateDocumentJobData` from `generate-document.job.ts`. -/
structure GenerateDocumentJobData where
  userId : String
  documentType : DocumentType
  htmlContent : String
  s3Key : String
  pdfOptions : Option PdfOptions
  imageOptions : Option ImageOptions
  metaData : Option MetaData
deriving Repr, DecidableEq

/-- The BullMQ job fields `process` reads (`id`, `queueName`, `data`). -/
structure Job where
  id : String
  queueName : String
  data : GenerateDocumentJobData
deriving Repr, DecidableEq

/-- `GenerateDocumentJobResult`: `metaData := none` models the key being
absent from the result object (the conditional object-spread adds the key
only when `job.data.metaData !== undefined`). -/
structure GenerateDocumentJobResult where
  url : String
  userId : String
  completedAt : String
  metaData : Option MetaData
deriving Repr, DecidableEq

/-- Calls the processor makes on its collaborators (info-level logs are not
modelled; the error log is, as the failure contract depends on it). -/
inductive PEvent where
  | renderPdf (html : String) (options : Option PdfOptions)
  | renderImage (html : String) (options : Option ImageOptions)
  | upload (key : String) (buffer : List Nat) (documentType : DocumentType)
  | logError (jobId : String) (queue : String) (message : String)
deriving Repr, DecidableEq

/-- Outcome of each awaited call inside one `process` invocation, plus the
clock value `new Date().toISOString()` would produce. -/
structure ProcessEnv where
  renderPdfResult : Except Err (List Nat)
  renderImageResult : Except Err (List Nat)
  uploadResult : Except Err String
  now : String

/-- `PdfGenerationProcessor.process`: dispatch on `documentType` to the
matching render call; on success upload the buffer and assemble the result,
spreading `metaData` in only when defined; any error is logged with the job
id and queue name and re-thrown unchanged. -/
def processRun (job : Job) (env : ProcessEnv) :
    Except Err GenerateDocumentJobResult × List PEvent :=
  let rendered : Except Err (List Nat) × List PEvent :=
    match job.data.documentType with
    | .pdf => (env.renderPdfResult, [.renderPdf job.data.htmlContent job.data.pdfOptions])
    | .image => (env.renderImageResult, [.renderImage job.data.htmlContent job.data.imageOptions])
  match rendered with
  | (.error e, tr) => (.error e, tr ++ [.logError job.id job.queueName e])
  | (.ok buffer, tr) =>
    match env.uploadResult with
    | .error e =>
      (.error e, tr ++ [.upload job.data.s3Key buffer job.data.documentType,
                        .logError job.id job.queueName e])
    | .ok url =>
      (.ok { url := url
           , userId := job.data.userId
           , completedAt := env.now
           , metaData := job.data.metaData }
      , tr ++ [.upload job.data.s3Key buffer job.data.documentType])

/-- The `PutObjectCommand` input built by `S3Service.upload`. -/
structure PutObjectCommandInput where
  Bucket : String
  Key : String
  Body : List Nat
  ContentType : String
deriving Repr, DecidableEq

/-- Outcome of `this.client.send(command)` inside one `upload` call. -/
structure S3UploadEnv where
  sendResult : Except Err Unit

/-- `S3Service.upload`: derive the content type from the document type,
send one `PutObjectCommand`, and on success return the deterministic public
URL of the object. Errors from `send` propagate. -/
def s3Upload (bucket : String) (key : String) (buffer : List Nat)
    (documentType : DocumentType) (env : S3UploadEnv) :
    Except Err String × List PutObjectCommandInput :=
  let contentType := if documentType = .pdf then "application/pdf" else "image/png"
  let command : PutObjectCommandInput :=
    { Bucket := bucket, Key := key, Body := buffer, ContentType := contentType }
  match env.sendResult with
  | .error e => (.error e, [command])
  | .ok _ => (.ok ("https://" ++ bucket ++ ".s3.amazonaws.com/" ++ key), [command])

/-! Concrete sample inputs used by witnesses and counterexamples. -/

/-- An `ImageOptions` object with no field set. -/
def emptyImageOptions : ImageOptions :=
  { type := none, quality := none, fullPage := none, deviceScaleFactor := none
  , hasTouch := none, isLandscape := none, isMobile := none, width := none
  , height := none, clip := none, omitBackground := none }

/-- A `PdfOptions` object with no field set. -/
def emptyPdfOptions : PdfOptions :=
  { format := none, landscape := none, printBackground := none, margin := none
  , tagged := none, preferCSSPageSize := none }

/-- A session environment in which every external call succeeds and the
content probe reports 800 by 600. -/
def okSessionEnv : SessionEnv :=
  { chromiumExecutablePath := "/tmp/chromium-bin"
  , launchResult := .ok ()
  , newPageResult := .ok ()
  , setContentResult := .ok ()
  , pdfResult := .ok [37, 80, 68, 70]
  , evaluateResult := .ok (Dimensions.mk 800 600)
  , screenshotResult := .ok [137, 80, 78, 71]
  , closeResult := .ok () }

/-- A pdf job carrying a metaData bag. -/
def sampleJobPdf : Job :=
  { id := "test-job-id-123"
  , queueName := "pdf-generation"
  , data :=
    { userId := "user-abc"
    , documentType := .pdf
    , htmlContent := "<html><body>ok</body></html>"
    , s3Key := "docs/file.pdf"
    , pdfOptions := none
    , imageOptions := none
    , metaData := some [("invoiceId", "INV-001")] } }

/-- A process environment in which render and upload succeed. -/
def okProcessEnv : ProcessEnv :=
  { renderPdfResult := .ok [37, 80, 68, 70]
  , renderImageResult := .ok [137, 80, 78, 71]
  , uploadResult := .ok "https://test-bucket.s3.amazonaws.com/docs/file.pdf"
  , now := "2026-01-01T00:00:00.000Z" }

/-- A process environment whose render step fails. -/
def renderFailProcessEnv : ProcessEnv :=
  { renderPdfResult := .error "Chromium crashed"
  , renderImageResult := .error "Chromium crashed"
  , uploadResult := .ok "https://test-bucket.s3.amazonaws.com/docs/file.pdf"
  , now := "2026-01-01T00:00:00.000Z" }

/-- An upload environment whose `send` call succeeds. -/
def okSendEnv : S3UploadEnv := { sendResult := .ok () }

/-! Theorems. -/

/-- C5: a successfully processed job's result carries the key `metaData`
iff the job's `metaData` was present, and verbatim when present; `none`
models the key being absent from the result object. -/
theorem metaData_roundtrip (job : Job) (env : ProcessEnv)
    (r : GenerateDocumentJobResult) (h : (processRun job env).1 = .ok r) :
    r.metaData = job.data.metaData := by
  cases hdt : job.data.documentType <;>
    cases hrp : env.renderPdfResult <;>
    cases hri : env.renderImageResult <;>
    cases hu : env.uploadResult <;>
    simp [processRun, hdt, hrp, hri, hu] at h <;>
    simp [← h]

/-- C5 witness: the theorem applied to a concrete pdf job with metaData. -/
theorem metaData_roundtrip_witness :
    (processRun sampleJobPdf okProcessEnv).1 =
      .ok { url := "https://test-bucket.s3.amazonaws.com/docs/file.pdf"
          , userId := "user-abc"
          , completedAt := "2026-01-01T00:00:00.000Z"
          , metaData := some [("invoiceId", "INV-001")] } ∧
    ({ url := "https://test-bucket.s3.amazonaws.com/docs/file.pdf"
     , userId := "user-abc"
     , completedAt := "2026-01-01T00:00:00.000Z"
     , metaData := some [("invoiceId", "INV-001")] :
       GenerateDocumentJobResult }).metaData = sampleJobPdf.data.metaData :=
  ⟨rfl, metaData_roundtrip sampleJobPdf okProcessEnv _ rfl⟩

/-- C6: the screenshot request never carries `quality` when the resolved
type is png, and carries the caller's quality (default 80) when the
resolved type is jpeg or webp. -/
theorem quality_gating (options : Option ImageOptions) (dims : Dimensions) :
    ((options.bind (·.type)).getD "png" = "png" →
      (buildScreenshotOptions options dims).quality = none) ∧
    (((options.bind (·.type)).getD "png" = "jpeg" ∨
      (options.bind (·.type)).getD "png" = "webp") →
      (buildScreenshotOptions options dims).quality =
        some ((options.bind (·.quality)).getD 80)) := by
  constructor <;> intro ht <;>
    cases hclip : options.bind (·.clip) <;>
    simp [buildScreenshotOptions, hclip, ht] <;>
    split <;> simp

/-- C6 witness: a caller asking for jpeg with no quality gets quality 80. -/
theorem quality_gating_witness :
    ((some { emptyImageOptions with type := some "jpeg" } : Option ImageOptions).bind
        (·.type)).getD "png" = "jpeg" ∧
    (buildScreenshotOptions (some { emptyImageOptions with type := some "jpeg" })
        (Dimensions.mk 800 600)).quality = some 80 :=
  ⟨rfl, (quality_gating (some { emptyImageOptions with type := some "jpeg" })
      (Dimensions.mk 800 600)).2 (Or.inl rfl)⟩

/-- C7: the upload's content type is application-pdf for pdf and image-png
for image (the requested image format is not even an input of `upload`),
and on success the returned URL is built deterministically from the bucket
and the key. -/
theorem upload_content_type_and_url (bucket key : String) (buffer : List Nat)
    (documentType : DocumentType) (env : S3UploadEnv) :
    (∀ cmd ∈ (s3Upload bucket key buffer documentType env).2,
      (documentType = .pdf → cmd.ContentType = "application/pdf") ∧
      (documentType = .image → cmd.ContentType = "image/png")) ∧
    (env.sendResult = .ok () →
      (s3Upload bucket key buffer documentType env).1 =
        .ok ("https://" ++ bucket ++ ".s3.amazonaws.com/" ++ key)) := by
  cases documentType <;> cases hs : env.sendResult <;>
    simp [s3Upload, hs]

/-- C7 witness: a concrete pdf upload returns the deterministic URL. -/
theorem upload_content_type_and_url_witness :
    okSendEnv.sendResult = .ok () ∧
    (s3Upload "test-bucket" "docs/file.pdf" [1, 2] .pdf okSendEnv).1 =
      .ok "https://test-bucket.s3.amazonaws.com/docs/file.pdf" :=
  ⟨rfl, (upload_content_type_and_url "test-bucket" "docs/file.pdf" [1, 2]
      .pdf okSendEnv).2 rfl⟩

/-- C9: an absent or empty configured local Chromium path makes the
resolution return the sparticuz chromium binary path (consulting it), a
non-empty one is returned as is without consulting the fallback, and the
config loader maps an empty environment variable to an absent setting. -/
theorem executable_path_resolution :
    (∀ c : String, getExecutablePath none c = (c, true)) ∧
    (∀ c : String, getExecutablePath (some "") c = (c, true)) ∧
    (∀ s c : String, s ≠ "" → getExecutablePath (some s) c = (s, false)) ∧
    loadLocalChromiumPath none = none ∧
    loadLocalChromiumPath (some "") = none ∧
    (∀ s : String, s ≠ "" → loadLocalChromiumPath (some s) = some s) := by
  refine ⟨fun c => rfl, fun c => rfl, fun s c hs => ?_, rfl, rfl, fun s hs => ?_⟩ <;>
    simp [getExecutablePath, loadLocalChromiumPath, hs]

/-- C9 witness: a concrete non-empty configured path is used verbatim and
the chromium fallback is not consulted. -/
theorem executable_path_resolution_witness :
    "/usr/bin/chromium-test" ≠ "" ∧
    getExecutablePath (some "/usr/bin/chromium-test") "/tmp/chromium-bin" =
      ("/usr/bin/chromium-test", false) :=
  ⟨by decide, executable_path_resolution.2.2.1 "/usr/bin/chromium-test"
      "/tmp/chromium-bin" (by decide)⟩

/-- C10: for a pdf job the whole pipeline outcome (calls and result) is
unchanged under any replacement of `imageOptions`, and for an image job
under any replacement of `pdfOptions`. -/
theorem options_noninterference (job : Job) (env : ProcessEnv) :
    (job.data.documentType = .pdf → ∀ io : Option ImageOptions,
      processRun { job with data := { job.data with imageOptions := io } } env =
        processRun job env) ∧
    (job.data.documentType = .image → ∀ po : Option PdfOptions,
      processRun { job with data := { job.data with pdfOptions := po } } env =
        processRun job env) := by
  constructor <;> intro hdt opts <;> simp [processRun, hdt]

/-- C10 witness: replacing the sample pdf job's imageOptions changes
nothing in the pipeline outcome. -/
theorem options_noninterference_witness :
    sampleJobPdf.data.documentType = .pdf ∧
    processRun { sampleJobPdf with data :=
        { sampleJobPdf.data with imageOptions := some emptyImageOptions } } okProcessEnv =
      processRun sampleJobPdf okProcessEnv :=
  ⟨rfl, (options_noninterference sampleJobPdf okProcessEnv).1 rfl
      (some emptyImageOptions)⟩

/-- A `PdfOptions` object supplying only `margin.top`. -/
def marginTopOnlyOptions : PdfOptions :=
  { emptyPdfOptions with margin := some (PdfMargin.mk (some "5mm") none none none) }

/-- C4 counterexample: a caller supplying only `margin.top` does not get
"10mm" for the other sides — the caller's margin object is passed through
verbatim and `margin.right` ends up absent. -/
theorem margin_not_defaulted_per_side :
    (resolvePdfOptions (some marginTopOnlyOptions)).margin =
      PdfMargin.mk (some "5mm") none none none ∧
    (resolvePdfOptions (some marginTopOnlyOptions)).margin.right ≠ some "10mm" := by
  exact ⟨rfl, by decide⟩

/-- Per-field pass-through/default contract of the options handed to
`page.pdf`: every top-level field defaults individually; the margin
defaults as one object. -/
def PdfOptionsSpec (o : PdfOptions) (ro : ResolvedPdfOptions) : Prop :=
  (∀ f, o.format = some f → ro.format = f) ∧
  (o.format = none → ro.format = "A4") ∧
  (∀ b, o.landscape = some b → ro.landscape = b) ∧
  (o.landscape = none → ro.landscape = false) ∧
  (∀ b, o.printBackground = some b → ro.printBackground = b) ∧
  (o.printBackground = none → ro.printBackground = true) ∧
  (∀ b, o.tagged = some b → ro.tagged = b) ∧
  (o.tagged = none → ro.tagged = true) ∧
  (∀ b, o.preferCSSPageSize = some b → ro.preferCSSPageSize = b) ∧
  (o.preferCSSPageSize = none → ro.preferCSSPageSize = true) ∧
  (∀ m, o.margin = some m → ro.margin = m) ∧
  (o.margin = none → ro.margin = defaultMargin)

/-- C4 (amended): the options handed to the PDF export contain each
supplied top-level field unchanged and each unsupplied top-level field at
its default; the margin defaults as a whole object — a caller-supplied
margin object is passed through verbatim, its sides are not individually
defaulted. -/
theorem pdf_options_resolution (lp : Option String) (env : SessionEnv)
    (html : String) (o : PdfOptions) (ro : ResolvedPdfOptions)
    (h : Event.pdfExport ro ∈ (generatePdfRun lp env html (some o)).2) :
    ro = resolvePdfOptions (some o) ∧ PdfOptionsSpec o ro := by
  have hro : ro = resolvePdfOptions (some o) := by
    cases hl : env.launchResult <;> cases hp : env.newPageResult <;>
      cases hs : env.setContentResult <;> cases hpdf : env.pdfResult <;>
      simp [generatePdfRun, hl, hp, hs, hpdf] at h <;> exact h
  subst hro
  refine ⟨rfl, ?_⟩
  unfold PdfOptionsSpec
  refine ⟨?_, ?_, ?_, ?_, ?_, ?_, ?_, ?_, ?_, ?_, ?_, ?_⟩ <;>
    intros <;> simp [resolvePdfOptions, *]

/-- C4 witness: the amended contract at a concrete successful run with
only `margin.top` supplied. -/
theorem pdf_options_resolution_witness :
    Event.pdfExport (resolvePdfOptions (some marginTopOnlyOptions)) ∈
      (generatePdfRun none okSessionEnv "<html></html>" (some marginTopOnlyOptions)).2 ∧
    (resolvePdfOptions (some marginTopOnlyOptions) =
        resolvePdfOptions (some marginTopOnlyOptions) ∧
      PdfOptionsSpec marginTopOnlyOptions (resolvePdfOptions (some marginTopOnlyOptions))) :=
  ⟨by decide, pdf_options_resolution none okSessionEnv "<html></html>"
      marginTopOnlyOptions _ (by decide)⟩

/-- Per-field pass-through/default contract of the viewport handed to the
launch call by `generateImage`. -/
def ViewportSpec (options : Option ImageOptions) (v : Viewport) : Prop :=
  (∀ n, options.bind (·.deviceScaleFactor) = some n → v.deviceScaleFactor = n) ∧
  (options.bind (·.deviceScaleFactor) = none → v.deviceScaleFactor = 1) ∧
  (∀ b, options.bind (·.hasTouch) = some b → v.hasTouch = b) ∧
  (options.bind (·.hasTouch) = none → v.hasTouch = false) ∧
  (∀ b, options.bind (·.isLandscape) = some b → v.isLandscape = b) ∧
  (options.bind (·.isLandscape) = none → v.isLandscape = false) ∧
  (∀ b, options.bind (·.isMobile) = some b → v.isMobile = b) ∧
  (options.bind (·.isMobile) = none → v.isMobile = true) ∧
  (∀ n, options.bind (·.width) = some n → v.width = n) ∧
  (options.bind (·.width) = none → v.width = 320) ∧
  (∀ n, options.bind (·.height) = some n → v.height = n) ∧
  (options.bind (·.height) = none → v.height = 1080)

/-- C8: every `generateImage` run starts with the launch call, which
already carries the resolved viewport (so it is fixed before any content
loads), and that viewport passes each supplied field through unchanged and
defaults each unsupplied field (width 320, height 1080, deviceScaleFactor
1, hasTouch false, isLandscape false, isMobile true). -/
theorem image_viewport_at_launch (lp : Option String) (env : SessionEnv)
    (html : String) (options : Option ImageOptions) :
    (generateImageRun lp env html options).2.head? =
      some (Event.launch (getExecutablePath lp env.chromiumExecutablePath).1
        (some (resolveViewport options))) ∧
    ViewportSpec options (resolveViewport options) := by
  constructor
  · cases hl : env.launchResult <;> simp [generateImageRun, hl]
  · unfold ViewportSpec
    refine ⟨?_, ?_, ?_, ?_, ?_, ?_, ?_, ?_, ?_, ?_, ?_, ?_⟩ <;>
      intros <;> simp [resolveViewport, *]

/-- C8 witness: the contract at a concrete run with no options. -/
theorem image_viewport_at_launch_witness :
    (generateImageRun none okSessionEnv "<html></html>" none).2.head? =
      some (Event.launch "/tmp/chromium-bin"
        (some (Viewport.mk 1 false false true 320 1080))) ∧
    ViewportSpec none (resolveViewport none) :=
  ⟨(image_viewport_at_launch none okSessionEnv "<html></html>" none).1,
   (image_viewport_at_launch none okSessionEnv "<html></html>" none).2⟩

/-- The claim's clip decision contract for a screenshot request `so` built
from caller options and probed dimensions: explicit clip wins verbatim,
else auto-fit when both probed dimensions are positive, else the resolved
fullPage fallback; exactly one of clip and fullPage is set. -/
def ClipDecisionSpec (options : Option ImageOptions) (dims : Dimensions)
    (so : ScreenshotOptions) : Prop :=
  (∀ c, options.bind (·.clip) = some c → so.clip = some c ∧ so.fullPage = none) ∧
  (options.bind (·.clip) = none → dims.width > 0 → dims.height > 0 →
    so.clip = some (Clip.mk 0 0 dims.width dims.height) ∧ so.fullPage = none) ∧
  (options.bind (·.clip) = none → ¬(dims.width > 0 ∧ dims.height > 0) →
    so.fullPage = some ((options.bind (·.fullPage)).getD true) ∧ so.clip = none) ∧
  ((so.clip.isSome ∧ so.fullPage = none) ∨ (so.clip = none ∧ so.fullPage.isSome))

/-- The built screenshot options always satisfy the clip decision contract. -/
theorem buildScreenshotOptions_clip_cases (options : Option ImageOptions)
    (dims : Dimensions) :
    ClipDecisionSpec options dims (buildScreenshotOptions options dims) := by
  cases hclip : options.bind (·.clip) <;>
    by_cases hdim : dims.width > 0 ∧ dims.height > 0 <;>
    by_cases ht : (options.bind (·.type)).getD "png" = "jpeg" ∨
      (options.bind (·.type)).getD "png" = "webp" <;>
    simp [ClipDecisionSpec, buildScreenshotOptions, hclip, hdim, ht] <;>
    omega

/-- C1: in every `generateImage` run whose probe returned `dims`, the
screenshot request is the built options record and satisfies the clip
decision contract: caller clip verbatim with fullPage unset; else auto-fit
clip from positive probed dimensions with fullPage unset; else
fullPage = caller value defaulting to true with clip unset — always exactly
one of the two. -/
theorem clip_strategy_exclusive (lp : Option String) (env : SessionEnv)
    (html : String) (options : Option ImageOptions) (so : ScreenshotOptions)
    (dims : Dimensions) (hdims : env.evaluateResult = .ok dims)
    (h : Event.screenshot so ∈ (generateImageRun lp env html options).2) :
    so = buildScreenshotOptions options dims ∧ ClipDecisionSpec options dims so := by
  have hso : so = buildScreenshotOptions options dims := by
    cases hl : env.launchResult <;> cases hp : env.newPageResult <;>
      cases hs : env.setContentResult <;> cases hsc : env.screenshotResult <;>
      simp [generateImageRun, hl, hp, hs, hdims, hsc] at h <;> exact h
  subst hso
  exact ⟨rfl, buildScreenshotOptions_clip_cases options dims⟩

/-- C1 witness: a concrete run with no caller clip and an 800 by 600 probe
takes the auto-fit branch of the contract. -/
theorem clip_strategy_exclusive_witness :
    okSessionEnv.evaluateResult = .ok (Dimensions.mk 800 600) ∧
    Event.screenshot (buildScreenshotOptions none (Dimensions.mk 800 600)) ∈
      (generateImageRun none okSessionEnv "<html></html>" none).2 ∧
    (buildScreenshotOptions none (Dimensions.mk 800 600) =
        buildScreenshotOptions none (Dimensions.mk 800 600) ∧
      ClipDecisionSpec none (Dimensions.mk 800 600)
        (buildScreenshotOptions none (Dimensions.mk 800 600))) :=
  ⟨rfl, by decide, clip_strategy_exclusive none okSessionEnv "<html></html>"
      none _ _ rfl (by decide)⟩

/-- Number of close calls in a session trace. -/
def countClose : List Event → Nat
  | [] => 0
  | e :: es => countClose es + (if e = Event.close then 1 else 0)

/-- A session environment whose export step and close step both fail. -/
def exportAndCloseFailEnv : SessionEnv :=
  { chromiumExecutablePath := "/tmp/chromium-bin"
  , launchResult := .ok ()
  , newPageResult := .ok ()
  , setContentResult := .ok ()
  , pdfResult := .error "render failed"
  , evaluateResult := .ok (Dimensions.mk 800 600)
  , screenshotResult := .error "render failed"
  , closeResult := .error "close failed" }

/-- C2 counterexample: when the export step throws "render failed" and the
close step then throws "close failed", the caller sees the close error —
not the original export error the claim promises. -/
theorem close_error_masks_export_error :
    exportAndCloseFailEnv.pdfResult = .error "render failed" ∧
    (generatePdfRun none exportAndCloseFailEnv "<html></html>" none).1 =
      .error "close failed" ∧
    ¬(generatePdfRun none exportAndCloseFailEnv "<html></html>" none).1 =
      .error "render failed" := by
  refine ⟨rfl, rfl, fun hcontra => ?_⟩
  have h2 : (generatePdfRun none exportAndCloseFailEnv "<html></html>" none).1 =
      Except.error "close failed" := rfl
  rw [h2] at hcontra
  exact absurd (Except.error.inj hcontra) (by decide)

/-- The close contract both render paths actually satisfy: close runs
exactly once whenever launch succeeded; a failing close is the error the
caller sees (replacing any in-flight error, per JS finally semantics); when
close succeeds, an export or capture error propagates unchanged. -/
def CloseContractSpec (lp : Option String) (env : SessionEnv) (html : String)
    (po : Option PdfOptions) (io : Option ImageOptions) : Prop :=
  countClose (generatePdfRun lp env html po).2 = 1 ∧
  countClose (generateImageRun lp env html io).2 = 1 ∧
  (∀ f, env.closeResult = .error f →
    (generatePdfRun lp env html po).1 = .error f ∧
    (generateImageRun lp env html io).1 = .error f) ∧
  (∀ e, env.closeResult = .ok () → env.newPageResult = .ok () →
    env.setContentResult = .ok () → env.pdfResult = .error e →
    (generatePdfRun lp env html po).1 = .error e) ∧
  (∀ e dims, env.closeResult = .ok () → env.newPageResult = .ok () →
    env.setContentResult = .ok () → env.evaluateResult = .ok dims →
    env.screenshotResult = .error e →
    (generateImageRun lp env html io).1 = .error e)

/-- C2 (amended): in every `generatePdf` or `generateImage` run whose
launch succeeds, `browser.close()` is invoked exactly once on every exit
path; if the export/capture step throws E and close succeeds, the caller
sees E; but if the close step itself fails, the propagated error is the
close-related one, which replaces E (JS finally semantics). -/
theorem browser_close_semantics (lp : Option String) (env : SessionEnv)
    (html : String) (po : Option PdfOptions) (io : Option ImageOptions)
    (hl : env.launchResult = .ok ()) :
    CloseContractSpec lp env html po io := by
  unfold CloseContractSpec
  refine ⟨?_, ?_, ?_, ?_, ?_⟩
  · cases hp : env.newPageResult <;> cases hs : env.setContentResult <;>
      cases hpdf : env.pdfResult <;>
      simp [generatePdfRun, hl, hp, hs, hpdf, countClose]
  · cases hp : env.newPageResult <;> cases hs : env.setContentResult <;>
      cases he : env.evaluateResult <;> cases hsc : env.screenshotResult <;>
      simp [generateImageRun, hl, hp, hs, he, hsc, countClose]
  · intro f hf
    constructor
    · cases hp : env.newPageResult <;> cases hs : env.setContentResult <;>
        cases hpdf : env.pdfResult <;>
        simp [generatePdfRun, hl, hp, hs, hpdf, hf]
    · cases hp : env.newPageResult <;> cases hs : env.setContentResult <;>
        cases he : env.evaluateResult <;> cases hsc : env.screenshotResult <;>
        simp [generateImageRun, hl, hp, hs, he, hsc, hf]
  · intro e hc hp hs hpdf
    simp [generatePdfRun, hl, hp, hs, hpdf, hc]
  · intro e dims hc hp hs he hsc
    simp [generateImageRun, hl, hp, hs, he, hsc, hc]

/-- C2 witness: the amended contract at a concrete all-success run. -/
theorem browser_close_semantics_witness :
    okSessionEnv.launchResult = .ok () ∧
    CloseContractSpec none okSessionEnv "<html></html>" none none :=
  ⟨rfl, browser_close_semantics none okSessionEnv "<html></html>" none none rfl⟩

/-- The outcome of the dispatched render step in `process` (pdf jobs call
`generatePdf`, image jobs call `generateImage`). -/
def renderStepResult (job : Job) (env : ProcessEnv) : Except Err (List Nat) :=
  match job.data.documentType with
  | .pdf => env.renderPdfResult
  | .image => env.renderImageResult

/-- What `process` does when the render step throws `e`: it rethrows the
same error, never calls upload, and logs a structured failure. -/
def RenderFailSpec (job : Job) (env : ProcessEnv) (e : Err) : Prop :=
  (processRun job env).1 = .error e ∧
  (∀ k b t, PEvent.upload k b t ∉ (processRun job env).2) ∧
  PEvent.logError job.id job.queueName e ∈ (processRun job env).2

/-- C3: if the render step throws E, `process` never calls upload, logs a
structured failure and rethrows the same E; if the upload step throws, no
JobResult is produced; a JobResult is only produced after a successful
upload (its url is the upload's). -/
theorem process_error_contract (job : Job) (env : ProcessEnv) :
    (∀ e, renderStepResult job env = .error e → RenderFailSpec job env e) ∧
    (∀ e, env.uploadResult = .error e → ∀ r, (processRun job env).1 ≠ .ok r) ∧
    (∀ r, (processRun job env).1 = .ok r → env.uploadResult = .ok r.url) := by
  refine ⟨?_, ?_, ?_⟩
  · intro e he
    unfold RenderFailSpec
    cases hdt : job.data.documentType <;>
      simp [renderStepResult, hdt] at he <;>
      simp [processRun, hdt, he]
  · intro e he r
    cases hdt : job.data.documentType <;>
      cases hrp : env.renderPdfResult <;> cases hri : env.renderImageResult <;>
      simp [processRun, hdt, hrp, hri, he]
  · intro r hr
    cases hdt : job.data.documentType <;>
      cases hrp : env.renderPdfResult <;> cases hri : env.renderImageResult <;>
      cases hu : env.uploadResult <;>
      simp [processRun, hdt, hrp, hri, hu] at hr <;>
      simp [hu, ← hr]

/-- C3 witness: a concrete pdf job whose render step throws — the error is
rethrown, upload is never called, and the failure is logged. -/
theorem process_error_contract_witness :
    renderStepResult sampleJobPdf renderFailProcessEnv = .error "Chromium crashed" ∧
    RenderFailSpec sampleJobPdf renderFailProcessEnv "Chromium crashed" :=
  ⟨rfl, (process_error_contract sampleJobPdf renderFailProcessEnv).1
      "Chromium crashed" rfl⟩

end TrinoDoc
